import Mathlib

/-!
Verification of `pandas/util/_test_decorators.py` (conditional test-skipping
helpers). The Python module is shallowly embedded: the process environment
(installed modules, locale state, open files, recorded warnings) is passed
explicitly, `False`-or-module results become an inductive type, Python
exceptions become `Except`, and Python `None` becomes `Option`.
-/

namespace TestDecorators

/-- Truthiness of a Python `Optional[bool]` value (`None` is falsy). -/
def pyTruthy : Option Bool → Bool
  | none => false
  | some b => b

/-- Truthiness of a Python `Optional[str]` value (`None` and `""` are falsy),
as used by `if not min_version:` and `if min_version:` in the source. -/
def pyTruthyStr : Option String → Bool
  | none => false
  | some s => s ≠ ""

def listStartsWith : List Char → List Char → Bool
  | _, [] => true
  | [], _ :: _ => false
  | c :: cs, d :: ds => c = d && listStartsWith cs ds

def listContainsInfix : List Char → List Char → Bool
  | h, n => listStartsWith h n ||
      match h with
      | [] => false
      | _ :: t => listContainsInfix t n

/-- Python substring containment `needle in haystack`. -/
def strContains (haystack needle : String) : Bool :=
  listContainsInfix haystack.data needle.data

/-! ### `distutils.version.LooseVersion`

`safe_import` compares versions with `LooseVersion`, an external collaborator
of the source module.  Its documented algorithm: split the version string at
runs of digits, runs of lowercase letters and single dots; drop the dots;
convert all-digit components to integers; compare the resulting lists with
Python list comparison (where `int` vs `str` raises `TypeError`). -/

/-- One parsed `LooseVersion` component: an integer or a string. -/
inductive VComp where
  | num (n : Nat)
  | str (s : String)
  deriving DecidableEq

/-- Character classes used by the `LooseVersion` component regex
`(\d+ | [a-z]+ | \.)`: digits, lowercase letters, a dot, and everything
else (left as unmatched text between matches). -/
inductive CKind where
  | digit
  | lower
  | dot
  | other
  deriving DecidableEq

def ckind (c : Char) : CKind :=
  if c.isDigit then .digit
  else if 'a' ≤ c && c ≤ 'z' then .lower
  else if c = '.' then .dot
  else .other

/-- Group a character list into maximal runs of the same `CKind`. -/
def groupRuns : List Char → List (CKind × List Char)
  | [] => []
  | c :: cs =>
    match groupRuns cs with
    | [] => [(ckind c, [c])]
    | (k, run) :: rest =>
      if ckind c = k then (k, c :: run) :: rest
      else (ckind c, [c]) :: (k, run) :: rest

/-- Numeric value of an all-digit run (Python `int(obj)`). -/
def natOfDigits (cs : List Char) : Nat :=
  cs.foldl (fun n c => n * 10 + (c.toNat - Char.toNat '0')) 0

/-- Components contributed by one run: dots are dropped, digit runs become
integers, everything else stays a string. -/
def compOfRun : CKind × List Char → List VComp
  | (.dot, _) => []
  | (.digit, run) => [.num (natOfDigits run)]
  | (.lower, run) => [.str (String.mk run)]
  | (.other, run) => [.str (String.mk run)]

/-- `LooseVersion(s).version`: the parsed component list. -/
def parseLooseVersion (s : String) : List VComp :=
  ((groupRuns s.data).map compOfRun).flatten

/-- Python `==` on components: `int == str` is `False`, never an error. -/
def vcompEq : VComp → VComp → Bool
  | .num a, .num b => a = b
  | .str a, .str b => a = b
  | _, _ => false

/-- Python `<` on components: comparing `int` with `str` raises `TypeError`. -/
def vcompLt : VComp → VComp → Except Unit Bool
  | .num a, .num b => .ok (decide (a < b))
  | .str a, .str b => .ok (decide (a < b))
  | _, _ => .error ()

/-- Python list `<`: lexicographic, equality checked first (so it never
raises), a strict prefix is smaller. -/
def vlistLt : List VComp → List VComp → Except Unit Bool
  | [], [] => .ok false
  | [], _ :: _ => .ok true
  | _ :: _, [] => .ok false
  | a :: as, b :: bs => if vcompEq a b then vlistLt as bs else vcompLt a b

/-- `Version._cmp` for `LooseVersion`: `0` on equal lists, otherwise decided
by list `<` in each direction; unreachable incomparable leftovers raise. -/
def looseVersionCmp (a b : String) : Except Unit Int :=
  let va := parseLooseVersion a
  let vb := parseLooseVersion b
  if va = vb then .ok 0
  else
    match vlistLt va vb with
    | .error e => .error e
    | .ok true => .ok (-1)
    | .ok false =>
      match vlistLt vb va with
      | .error e => .error e
      | .ok true => .ok 1
      | .ok false => .error ()

/-- `LooseVersion(a) >= LooseVersion(b)` (`__ge__`: `self._cmp(other) >= 0`). -/
def looseVersionGE (a b : String) : Except Unit Bool :=
  match looseVersionCmp a b with
  | .error e => .error e
  | .ok c => .ok (decide (0 ≤ c))

/-! ### The process environment and `safe_import` -/

/-- Python exceptions that can escape the embedded functions. -/
inductive PyErr where
  | attributeError
  | typeError
  deriving DecidableEq

/-- What the interpreter knows about one importable module: its
`__version__` attribute and the legacy capitalized `__VERSION__` attribute,
each `none` when the attribute does not exist. -/
structure ModuleInfo where
  version : Option String
  versionCap : Option String
  deriving DecidableEq

/-- The importable-module table: `installed name` is `some info` exactly when
`__import__ name` succeeds, in which case `sys.modules[name]` carries
`info`. -/
structure Env where
  installed : String → Option ModuleInfo

/-- `__import__ "a.b.c"` returns the top-level module `a`: the part of the
dotted name before the first dot. -/
def topLevelName (mod_name : String) : String :=
  String.mk (mod_name.data.takeWhile fun c => c ≠ '.')

/-- Result of `safe_import`: a module handle (identified by the name of the
module object returned) or the Python constant `False`. -/
inductive SafeImportResult where
  | module (handle : String)
  | pyFalse
  deriving DecidableEq

/-- `safe_import(mod_name, min_version)` (lines 41-86 of the source): import
the module, returning `False` on `ImportError`; without a (truthy)
`min_version` return the module; otherwise read `__version__` (falling back
to `__VERSION__`, raising `AttributeError` when both are missing) and return
the module only when the version is truthy and `LooseVersion`-at least
`min_version`. -/
def safe_import (env : Env) (mod_name : String) (min_version : Option String) :
    Except PyErr SafeImportResult :=
  match env.installed mod_name with
  | none => .ok .pyFalse
  | some info =>
    if pyTruthyStr min_version then
      match (match info.version with
             | some v => some v
             | none => info.versionCap) with
      | none => .error .attributeError
      | some version =>
        if version ≠ "" then
          match looseVersionGE version (min_version.getD "") with
          | .error _ => .error .typeError
          | .ok true => .ok (.module (topLevelName mod_name))
          | .ok false => .ok .pyFalse
        else .ok .pyFalse
    else .ok (.module (topLevelName mod_name))

/-- Truthiness of a `safe_import` result: a module object is truthy,
`False` is not. -/
def importTruthy : SafeImportResult → Bool
  | .module _ => true
  | .pyFalse => false

/-! ### Locale probes -/

/-- `locale.getlocale()`: a `(language, encoding)` pair, each possibly
`None`. -/
abbrev LocaleState := Option String × Option String

/-- `_skip_if_has_locale` (lines 97-100): returns `True` when the current
language is not `None`, otherwise falls off the end returning `None`. -/
def _skip_if_has_locale (loc : LocaleState) : Option Bool :=
  if loc.1 ≠ none then some true else none

/-- `_skip_if_not_us_locale` (lines 103-106): returns `True` when the current
language differs from `"en_US"` (Python `None != "en_US"` is `True`),
otherwise returns `None`. -/
def _skip_if_not_us_locale (loc : LocaleState) : Option Bool :=
  if loc.1 ≠ some "en_US" then some true else none

/-! ### Skip marks -/

/-- A `pytest.mark.skipif(condition, reason)` mark built from a non-string
condition: pytest only ever uses the truthiness of the stored object, and the
objects stored here (`True`, `None`, `bool`) are immutable, so the mark is
modelled by that truthiness plus the reason text. -/
structure SkipIfMark where
  condition : Bool
  reason : String
  deriving DecidableEq

/-- Evaluating a boolean-condition mark at test-collection time: the stored
object's truthiness is independent of the locale (or any other process
state) at evaluation time. -/
def evalSkipCondition (m : SkipIfMark) (_localeAtEval : LocaleState) : Bool :=
  m.condition

/-- Python `f"{x}"` for `x : Optional[str]` (`None` renders as `"None"`). -/
def pyFormatOptStr : Option String → String
  | none => "None"
  | some s => s

/-- The module-level locale marks (lines 183-188): importing the module calls
`_skip_if_has_locale()` / `_skip_if_not_us_locale()` once, at import-time
locale, and bakes the results into the marks. -/
structure LocaleMarks where
  skip_if_has_locale : SkipIfMark
  skip_if_not_us_locale : SkipIfMark
  deriving DecidableEq

def importLocaleMarks (loc : LocaleState) : LocaleMarks :=
  { skip_if_has_locale :=
      { condition := pyTruthy (_skip_if_has_locale loc)
        reason := "Specific locale is set " ++ pyFormatOptStr loc.1 }
    skip_if_not_us_locale :=
      { condition := pyTruthy (_skip_if_not_us_locale loc)
        reason := "Specific locale is set " ++ pyFormatOptStr loc.1 } }

/-- `skip_if_no(package, min_version)` (lines 136-171): a skipif mark whose
condition is `not safe_import(package, min_version)` and whose reason embeds
the package name and, when a truthy `min_version` was given, that version. -/
def skip_if_no (env : Env) (package : String) (min_version : Option String) :
    Except PyErr SkipIfMark :=
  let msg := "Could not import " ++ "'" ++ package ++ "'"
  let msg :=
    if pyTruthyStr min_version then
      msg ++ " satisfying a min_version of " ++ min_version.getD ""
    else msg
  match safe_import env package min_version with
  | .error e => .error e
  | .ok r => .ok { condition := !importTruthy r, reason := msg }

/-! ### `check_file_leaks`

The context manager records warnings while the scope runs and, when `psutil`
is importable, snapshots the process's open files and connections at entry.
On exit it first restores the caller's warning handler and re-emits every
recorded warning, then runs its assertions in order: non-`ssl`
`ResourceWarning`s, then the open-file comparison, then (unless configured
away) the connection comparison. -/

/-- Warning categories distinguished by `__exit__`
(`issubclass(warn.category, ResourceWarning)`). -/
inductive WarnCategory where
  | resourceWarning
  | deprecationWarning
  | userWarning
  | other
  deriving DecidableEq

def isResourceCategory : WarnCategory → Bool
  | .resourceWarning => true
  | _ => false

/-- One recorded `warnings.WarningMessage` (the fields `__exit__` reads). -/
structure Warning where
  message : String
  category : WarnCategory
  deriving DecidableEq

/-- One `psutil` open-file entry: path, file descriptor, and (on some builds)
the current file position. -/
structure OpenFile where
  path : String
  fd : Nat
  position : Nat
  deriving DecidableEq

/-- A process connection as returned by `proc.connections()`, identified by
its descriptor tuple rendered as a string. -/
abbrev Conn := String

/-- The `psutil`-visible state of the current process at one instant. -/
structure ProcState where
  openFiles : List OpenFile
  connections : List Conn
  deriving DecidableEq

/-- The state `check_file_leaks.__enter__` stores on `self`: the
`ignore_connections` flag from construction, and the entry snapshot of files
and connections when `psutil` imported (`self.psutil` truthy). -/
structure LeakCtx where
  ignore_connections : Bool
  snap : Option (List OpenFile × List Conn)
  deriving DecidableEq

/-- `__enter__` (lines 247-259): start recording warnings, and when `psutil`
is available snapshot `proc.open_files()` and `proc.connections()`. -/
def check_file_leaks_enter (ignore_connections : Bool)
    (psutilProc : Option ProcState) : LeakCtx :=
  { ignore_connections
    snap := psutilProc.map fun p => (p.openFiles, p.connections) }

/-- A failed assertion in `__exit__`, carrying the data its message shows:
the offending warning messages, or the two set differences. -/
inductive LeakFailure where
  | resourceWarnings (msgs : List String)
  | fileLeak (closedInScope openedInScope : Finset (String × Nat))
  | connLeak (closedInScope openedInScope : Finset Conn)
  deriving DecidableEq

instance {ε α : Type} [DecidableEq ε] [DecidableEq α] : DecidableEq (Except ε α) :=
  fun a b =>
    match a, b with
    | .error e, .error f =>
      if h : e = f then .isTrue (by rw [h]) else .isFalse (by simp [h])
    | .ok x, .ok y =>
      if h : x = y then .isTrue (by rw [h]) else .isFalse (by simp [h])
    | .error _, .ok _ => .isFalse (fun h => Except.noConfusion h)
    | .ok _, .error _ => .isFalse (fun h => Except.noConfusion h)

/-- What `__exit__` does, observably: the warnings re-emitted to the restored
outer handler, and either success or the first failing assertion. -/
structure ExitResult where
  emitted : List Warning
  result : Except LeakFailure Unit
  deriving DecidableEq

/-- The condition of the `__exit__` list comprehension selecting failing
warnings: a `ResourceWarning` whose message does not mention `"ssl"`. -/
def offendingWarning (w : Warning) : Bool :=
  isResourceCategory w.category && !strContains w.message "ssl"

/-- The `(x.path, x.fd)` set built from an open-file list (file position
excluded, as the source comments explain). -/
def fdSet (files : List OpenFile) : Finset (String × Nat) :=
  (files.map fun x => (x.path, x.fd)).toFinset

/-- `__exit__` (lines 261-295).  `record` is what the warning catcher
collected during the scope, `proc` the process state at exit, and
`scopeRaised` says whether the scope is exiting on an exception — the body
ignores it (`catch_warnings.__exit__` discards its arguments), so every exit
path runs the same code.  The warnings are re-emitted before any assertion;
the assertions run in source order. -/
def check_file_leaks_exit (ctx : LeakCtx) (record : List Warning)
    (proc : ProcState) (scopeRaised : Bool) : ExitResult :=
  let _ := scopeRaised
  let emitted := record
  let messages := (record.filter offendingWarning).map fun w => w.message
  if messages ≠ [] then
    { emitted, result := .error (.resourceWarnings messages) }
  else
    match ctx.snap with
    | none => { emitted, result := .ok () }
    | some (flist, conns) =>
      let flist_ex := fdSet flist
      let flist2_ex := fdSet proc.openFiles
      if flist2_ex ≠ flist_ex then
        { emitted
          result := .error (.fileLeak (flist_ex \ flist2_ex) (flist2_ex \ flist_ex)) }
      else
        if !ctx.ignore_connections && conns.toFinset ≠ proc.connections.toFinset then
          { emitted
            result := .error (.connLeak (conns.toFinset \ proc.connections.toFinset)
              (proc.connections.toFinset \ conns.toFinset)) }
        else { emitted, result := .ok () }

/-! ## Claims -/

/-- Claim C1, as stated, is false: the locale marks are built by calling the
probes once at module import, so two runs that differ only in the locale set
between import and condition evaluation have the same condition truthiness
even where the probe value at evaluation time differs. -/
theorem c1_locale_marks_call_time_counterexample :
    evalSkipCondition (importLocaleMarks (some "en_US", some "UTF-8")).skip_if_has_locale
        (some "en_US", some "UTF-8") =
      evalSkipCondition (importLocaleMarks (some "en_US", some "UTF-8")).skip_if_has_locale
        (none, none) ∧
    pyTruthy (_skip_if_has_locale (some "en_US", some "UTF-8")) ≠
      pyTruthy (_skip_if_has_locale (none, none)) := by
  decide

/-- Claim C1 (amended): the locale-based skip conditions reflect
`locale.getlocale()` at module-import time; the locale in force when the
condition is evaluated is irrelevant, since the probe result was baked into
the mark at import. -/
theorem c1_locale_marks_import_time (importLoc evalLoc evalLoc' : LocaleState) :
    evalSkipCondition (importLocaleMarks importLoc).skip_if_has_locale evalLoc =
      pyTruthy (_skip_if_has_locale importLoc) ∧
    evalSkipCondition (importLocaleMarks importLoc).skip_if_not_us_locale evalLoc =
      pyTruthy (_skip_if_not_us_locale importLoc) ∧
    evalSkipCondition (importLocaleMarks importLoc).skip_if_has_locale evalLoc =
      evalSkipCondition (importLocaleMarks importLoc).skip_if_has_locale evalLoc' :=
  ⟨rfl, rfl, rfl⟩

/-- Claim C2, as stated, is false: with the language unset
(`locale.getlocale()` returning `(None, None)`), `_skip_if_has_locale`
returns `None`, which is falsy — the probe reports skip when a locale IS
set, not when it is unset. -/
theorem c2_locale_probe_counterexample :
    ((none, none) : LocaleState).1 = none ∧
    pyTruthy (_skip_if_has_locale (none, none)) = false := by
  decide

/-- Claim C2 (amended): `_skip_if_has_locale` reports skip (returns a truthy
value) exactly when the current locale language is set (not `None`);
`_skip_if_not_us_locale` reports skip exactly when the language does not
equal `"en_US"`. -/
theorem c2_locale_probes (loc : LocaleState) :
    (pyTruthy (_skip_if_has_locale loc) = true ↔ loc.1 ≠ none) ∧
    (pyTruthy (_skip_if_not_us_locale loc) = true ↔ loc.1 ≠ some "en_US") := by
  obtain ⟨lang, enc⟩ := loc
  constructor
  · cases lang <;> simp [_skip_if_has_locale, pyTruthy]
  · rcases lang with _ | s
    · simp [_skip_if_not_us_locale, pyTruthy]
    · by_cases h : s = "en_US" <;> simp [_skip_if_not_us_locale, pyTruthy, h]

/-- Claim C6: on every exit path of the `check_file_leaks` scope (normal or
exceptional, and whether or not an assertion then fails), every warning
recorded during the scope is re-emitted to the caller's restored warning
handler; the re-emission is part of the result regardless of the assertion
outcome. -/
theorem c6_exit_reemits_all_warnings (ctx : LeakCtx) (record : List Warning)
    (proc : ProcState) (scopeRaised : Bool) :
    (check_file_leaks_exit ctx record proc scopeRaised).emitted = record := by
  simp only [check_file_leaks_exit]
  repeat' split
  all_goals rfl

/-- Claim C3: for an installed module carrying a (non-empty) version string
and a requested (non-empty) minimum version, `safe_import` returns the module
handle exactly when the version is `LooseVersion`-at least the minimum, and
`False` when it is below. -/
theorem c3_safe_import_version_gate (env : Env) (mod : String) (info : ModuleInfo)
    (v m : String) (ge : Bool) (hmod : env.installed mod = some info)
    (hv : info.version = some v) (hvne : v ≠ "") (hm : m ≠ "")
    (hge : looseVersionGE v m = .ok ge) :
    safe_import env mod (some m) =
      .ok (if ge then .module (topLevelName mod) else .pyFalse) := by
  unfold safe_import
  rw [hmod]
  simp only [pyTruthyStr, hv, hm, Option.getD_some, ne_eq, not_false_eq_true,
    if_true, hvne, if_pos, hge]
  cases ge <;> simp

/-- Concrete instance of claim C3: with `numpy` installed at version
`"1.10.0"`, a minimum of `"1.9.0"` is satisfied under the lenient
dotted-component ordering and the handle is returned, while at installed
version `"1.8.0"` the same minimum fails and `False` is returned. -/
theorem c3_safe_import_version_gate_witness :
    safe_import ⟨fun s => if s = "numpy" then some ⟨some "1.10.0", none⟩ else none⟩
        "numpy" (some "1.9.0") = .ok (.module "numpy") ∧
    safe_import ⟨fun s => if s = "numpy" then some ⟨some "1.8.0", none⟩ else none⟩
        "numpy" (some "1.9.0") = .ok .pyFalse := by
  constructor
  · have h := c3_safe_import_version_gate
      ⟨fun s => if s = "numpy" then some ⟨some "1.10.0", none⟩ else none⟩
      "numpy" ⟨some "1.10.0", none⟩ "1.10.0" "1.9.0" true (by decide) rfl
      (by decide) (by decide) (by decide)
    rw [h]; decide
  · have h := c3_safe_import_version_gate
      ⟨fun s => if s = "numpy" then some ⟨some "1.8.0", none⟩ else none⟩
      "numpy" ⟨some "1.8.0", none⟩ "1.8.0" "1.9.0" false (by decide) rfl
      (by decide) (by decide) (by decide)
    rw [h]; decide

/-- Claim C4: a non-installed module name makes `safe_import` return `False`
(for any requested minimum version — the `ImportError` is caught, never
propagated), and an installed module with no minimum version requested
yields the imported module handle. -/
theorem c4_safe_import_absent_and_no_min (env : Env) (mod : String)
    (min_version : Option String) (info : ModuleInfo) :
    (env.installed mod = none → safe_import env mod min_version = .ok .pyFalse) ∧
    (env.installed mod = some info →
      safe_import env mod none = .ok (.module (topLevelName mod))) := by
  constructor
  · intro h
    unfold safe_import
    rw [h]
  · intro h
    unfold safe_import
    rw [h]
    simp [pyTruthyStr]

/-- Concrete instance of claim C4: `safe_import` on an absent package returns
`False` even with a minimum version requested, and on an installed `pytest`
with no minimum returns the handle. -/
theorem c4_safe_import_absent_and_no_min_witness :
    safe_import ⟨fun s => if s = "pytest" then some ⟨some "6.0", none⟩ else none⟩
        "definitely_not_a_real_package_xyz" (some "1.0") = .ok .pyFalse ∧
    safe_import ⟨fun s => if s = "pytest" then some ⟨some "6.0", none⟩ else none⟩
        "pytest" none = .ok (.module "pytest") := by
  constructor
  · exact (c4_safe_import_absent_and_no_min
      ⟨fun s => if s = "pytest" then some ⟨some "6.0", none⟩ else none⟩
      "definitely_not_a_real_package_xyz" (some "1.0") ⟨some "6.0", none⟩).1 (by decide)
  · have h := (c4_safe_import_absent_and_no_min
      ⟨fun s => if s = "pytest" then some ⟨some "6.0", none⟩ else none⟩
      "pytest" none ⟨some "6.0", none⟩).2 (by decide)
    rw [h]; decide

/-- Claim C9: a successful `safe_import` (no minimum version) returns the
handle of the top-level package named by the first dotted component, while
the success/failure decision reflects importability of the full dotted
name. -/
theorem c9_safe_import_returns_top_level (env : Env) (mod : String) :
    ((env.installed mod).isSome →
      safe_import env mod none = .ok (.module (topLevelName mod))) ∧
    (env.installed mod = none → safe_import env mod none = .ok .pyFalse) := by
  constructor
  · intro h
    obtain ⟨info, hi⟩ := Option.isSome_iff_exists.mp h
    unfold safe_import
    rw [hi]
    simp [pyTruthyStr]
  · intro h
    unfold safe_import
    rw [h]

/-- Concrete instance of claim C9: with `"scipy.stats"` importable but
`"scipy.sparse"` not, `safe_import "scipy.stats"` returns the top-level
`scipy` handle — not a `scipy.stats` handle — and `safe_import
"scipy.sparse"` returns `False`. -/
theorem c9_safe_import_returns_top_level_witness :
    safe_import ⟨fun s => if s = "scipy.stats" then some ⟨some "1.5.2", none⟩ else none⟩
        "scipy.stats" none = .ok (.module "scipy") ∧
    topLevelName "scipy.stats" ≠ "scipy.stats" ∧
    safe_import ⟨fun s => if s = "scipy.stats" then some ⟨some "1.5.2", none⟩ else none⟩
        "scipy.sparse" none = .ok .pyFalse := by
  refine ⟨?_, by decide, ?_⟩
  · have h := (c9_safe_import_returns_top_level
      ⟨fun s => if s = "scipy.stats" then some ⟨some "1.5.2", none⟩ else none⟩
      "scipy.stats").1 (by decide)
    rw [h]; decide
  · exact (c9_safe_import_returns_top_level
      ⟨fun s => if s = "scipy.stats" then some ⟨some "1.5.2", none⟩ else none⟩
      "scipy.sparse").2 (by decide)

/-- Claim C10: when a (truthy) minimum version is requested and the installed
module's `__version__` attribute holds the empty string, `safe_import`
returns `False` — without reaching the version comparison, so no comparison
error can occur — whatever the requested minimum. -/
theorem c10_safe_import_empty_version (env : Env) (mod : String) (info : ModuleInfo)
    (m : String) (hmod : env.installed mod = some info)
    (hv : info.version = some "") (hm : m ≠ "") :
    safe_import env mod (some m) = .ok .pyFalse := by
  unfold safe_import
  rw [hmod]
  simp [pyTruthyStr, hv, hm]

/-- Concrete instance of claim C10: an installed `xlwt` whose `__version__`
is the empty string is reported as `False` for a requested minimum of
`"1.2.0"`. -/
theorem c10_safe_import_empty_version_witness :
    safe_import ⟨fun s => if s = "xlwt" then some ⟨some "", none⟩ else none⟩
        "xlwt" (some "1.2.0") = .ok .pyFalse :=
  c10_safe_import_empty_version
    ⟨fun s => if s = "xlwt" then some ⟨some "", none⟩ else none⟩
    "xlwt" ⟨some "", none⟩ "1.2.0" (by decide) rfl (by decide)

/-- Claim C5: whenever the probe settles (returns rather than raises),
`skip_if_no` yields a mark whose condition is truthy exactly when the probe
failed, whose reason contains the package name, and — when a (truthy)
minimum version was requested — also that minimum version. -/
theorem c5_skip_if_no_mark (env : Env) (package : String) (min_version : Option String)
    (r : SafeImportResult) (hr : safe_import env package min_version = .ok r) :
    ∃ mark, skip_if_no env package min_version = .ok mark ∧
      (mark.condition = true ↔ r = .pyFalse) ∧
      (∃ pre post, mark.reason = pre ++ package ++ post) ∧
      (∀ m, min_version = some m → m ≠ "" → ∃ pre, mark.reason = pre ++ m) := by
  refine ⟨{ condition := !importTruthy r,
            reason := if pyTruthyStr min_version then
                "Could not import " ++ "'" ++ package ++ "'" ++
                  " satisfying a min_version of " ++ min_version.getD ""
              else "Could not import " ++ "'" ++ package ++ "'" },
    ?_, ?_, ?_, ?_⟩
  · simp only [skip_if_no, hr]
  · cases r <;> simp [importTruthy]
  · by_cases hmv : pyTruthyStr min_version = true
    · exact ⟨"Could not import " ++ "'",
        "'" ++ " satisfying a min_version of " ++ min_version.getD "",
        by simp [hmv, String.append_assoc]⟩
    · exact ⟨"Could not import " ++ "'", "'", by simp [hmv]⟩
  · intro m hm hmne
    subst hm
    have hmv : pyTruthyStr (some m) = true := by simp [pyTruthyStr, hmne]
    exact ⟨"Could not import " ++ "'" ++ package ++ "'" ++
      " satisfying a min_version of ", by simp [hmv]⟩

/-- Concrete instance of claim C5: for an absent package probed with a
minimum version, the resulting mark's condition is truthy and its reason
contains both the package name and the requested version. -/
theorem c5_skip_if_no_mark_witness :
    ∃ mark, skip_if_no ⟨fun _ => none⟩ "definitely_not_a_real_package_xyz"
        (some "1.2.3") = .ok mark ∧
      mark.condition = true ∧
      (∃ pre post, mark.reason = pre ++ "definitely_not_a_real_package_xyz" ++ post) ∧
      (∃ pre, mark.reason = pre ++ "1.2.3") := by
  obtain ⟨mark, h1, h2, h3, h4⟩ := c5_skip_if_no_mark ⟨fun _ => none⟩
    "definitely_not_a_real_package_xyz" (some "1.2.3") .pyFalse (by decide)
  exact ⟨mark, h1, h2.mpr rfl, h3, h4 "1.2.3" rfl (by decide)⟩

/-- Claim C7: with the process-introspection library available and the other
exit assertions passing (no offending warning recorded, connections
unchanged or ignored), the exit succeeds exactly when the set of
`(path, fd)` pairs of open files at exit equals the set at entry — file
position plays no role — and a difference fails reporting the two set
differences. -/
theorem c7_open_file_comparison (ctx : LeakCtx) (record : List Warning)
    (proc : ProcState) (scopeRaised : Bool) (flist : List OpenFile) (conns : List Conn)
    (hsnap : ctx.snap = some (flist, conns))
    (hwarn : record.filter offendingWarning = [])
    (hconn : ctx.ignore_connections = true ∨ conns.toFinset = proc.connections.toFinset) :
    ((check_file_leaks_exit ctx record proc scopeRaised).result = .ok () ↔
      fdSet proc.openFiles = fdSet flist) ∧
    (fdSet proc.openFiles ≠ fdSet flist →
      (check_file_leaks_exit ctx record proc scopeRaised).result =
        .error (.fileLeak (fdSet flist \ fdSet proc.openFiles)
          (fdSet proc.openFiles \ fdSet flist))) := by
  simp only [check_file_leaks_exit, hwarn, hsnap, List.map_nil, ne_eq,
    not_true_eq_false, if_false, reduceIte]
  by_cases hf : fdSet proc.openFiles = fdSet flist
  · simp only [hf, not_true_eq_false, reduceIte]
    rcases hconn with hic | hc
    · simp [hic]
    · simp [hc]
  · simp [hf]

/-- Concrete instance of claim C7: a file whose position advanced but which
stayed open does not fail the check, while a file left open at exit fails
it, the extra `(path, fd)` pair appearing in the reported difference. -/
theorem c7_open_file_comparison_witness :
    (check_file_leaks_exit (check_file_leaks_enter false (some ⟨[⟨"/tmp/data.csv", 3, 0⟩], []⟩))
        [] ⟨[⟨"/tmp/data.csv", 3, 4096⟩], []⟩ false).result = .ok () ∧
    (check_file_leaks_exit (check_file_leaks_enter false (some ⟨[⟨"/tmp/data.csv", 3, 0⟩], []⟩))
        [] ⟨[⟨"/tmp/data.csv", 3, 0⟩, ⟨"/tmp/leak.txt", 7, 0⟩], []⟩ false).result =
      .error (.fileLeak ∅ {("/tmp/leak.txt", 7)}) := by
  constructor
  · exact (c7_open_file_comparison
      (check_file_leaks_enter false (some ⟨[⟨"/tmp/data.csv", 3, 0⟩], []⟩)) []
      ⟨[⟨"/tmp/data.csv", 3, 4096⟩], []⟩ false [⟨"/tmp/data.csv", 3, 0⟩] [] rfl
      (by decide) (.inr (by decide))).1.mpr (by decide)
  · have h := (c7_open_file_comparison
      (check_file_leaks_enter false (some ⟨[⟨"/tmp/data.csv", 3, 0⟩], []⟩)) []
      ⟨[⟨"/tmp/data.csv", 3, 0⟩, ⟨"/tmp/leak.txt", 7, 0⟩], []⟩ false
      [⟨"/tmp/data.csv", 3, 0⟩] [] rfl (by decide) (.inr (by decide))).2 (by decide)
    rw [h]
    decide

/-- Claim C8: with the file and connection comparisons out of the way
(introspection unavailable, or both snapshots unchanged/ignored), the exit
raises exactly when some recorded warning is a `ResourceWarning` whose
message does not contain `"ssl"` — so `ResourceWarning`s mentioning `"ssl"`
never cause a failure — and the failure carries exactly the offending
messages. -/
theorem c8_resource_warning_assertion (ctx : LeakCtx) (record : List Warning)
    (proc : ProcState) (scopeRaised : Bool)
    (hrest : ctx.snap = none ∨ ∃ flist conns, ctx.snap = some (flist, conns) ∧
      fdSet proc.openFiles = fdSet flist ∧
      (ctx.ignore_connections = true ∨ conns.toFinset = proc.connections.toFinset)) :
    ((check_file_leaks_exit ctx record proc scopeRaised).result ≠ .ok () ↔
      record.filter offendingWarning ≠ []) ∧
    (record.filter offendingWarning ≠ [] →
      (check_file_leaks_exit ctx record proc scopeRaised).result =
        .error (.resourceWarnings ((record.filter offendingWarning).map
          fun w => w.message))) := by
  by_cases hw : record.filter offendingWarning = []
  · simp only [check_file_leaks_exit, hw, List.map_nil, ne_eq, not_true_eq_false,
      if_false, reduceIte]
    rcases hrest with hnone | ⟨flist, conns, hsnap, hfeq, hconn⟩
    · simp [hnone, hw]
    · simp only [hsnap, hfeq, not_true_eq_false, reduceIte, hw]
      rcases hconn with hic | hc
      · simp [hic]
      · simp [hc]
  · have hmsg : (record.filter offendingWarning).map (fun w => w.message) ≠ [] := by
      simpa using hw
    simp [check_file_leaks_exit, hmsg, hw]

/-- Concrete instance of claim C8: a recorded `ResourceWarning` about an
unclosed file fails the exit, carrying that message, while a
`ResourceWarning` mentioning `"ssl"` leaves the exit successful. -/
theorem c8_resource_warning_assertion_witness :
    (check_file_leaks_exit (check_file_leaks_enter false none)
        [⟨"unclosed file <fd 5>", .resourceWarning⟩] ⟨[], []⟩ false).result =
      .error (.resourceWarnings ["unclosed file <fd 5>"]) ∧
    (check_file_leaks_exit (check_file_leaks_enter false none)
        [⟨"unclosed ssl.SSLSocket", .resourceWarning⟩] ⟨[], []⟩ false).result = .ok () := by
  constructor
  · have h := (c8_resource_warning_assertion (check_file_leaks_enter false none)
      [⟨"unclosed file <fd 5>", .resourceWarning⟩] ⟨[], []⟩ false (.inl rfl)).2 (by decide)
    rw [h]
    decide
  · by_contra hne
    exact absurd ((c8_resource_warning_assertion (check_file_leaks_enter false none)
      [⟨"unclosed ssl.SSLSocket", .resourceWarning⟩] ⟨[], []⟩ false (.inl rfl)).1.mp hne)
      (by decide)

end TestDecorators
